import Mathlib

/-!
Verification of the fighterjs physics engine (`src/systems/PhysicsSystem.js`)
against its natural-language specification.  The JavaScript code is shallowly
embedded over the exact reals: `Vec3` mirrors the THREE.Vector3 operations the
physics code uses, `RigidBody`/`StaticBody` mirror the records built by
`addRigidBody`/`addStaticBody`, and each phase of the per-tick pipeline
(`updateRigidBodies`, `detectCollisions`, `resolveCollisions`,
`enforceWorldBounds`) and the `applyKnockback` API is translated function by
function.
-/

noncomputable section

namespace FighterPhys

/-- Three-component real vector, mirroring THREE.Vector3. -/
structure Vec3 where
  x : ℝ
  y : ℝ
  z : ℝ
deriving DecidableEq

namespace Vec3

/-- THREE.Vector3.add (componentwise). -/
def add (a b : Vec3) : Vec3 := ⟨a.x + b.x, a.y + b.y, a.z + b.z⟩

/-- THREE.Vector3.sub (componentwise). -/
def sub (a b : Vec3) : Vec3 := ⟨a.x - b.x, a.y - b.y, a.z - b.z⟩

/-- THREE.Vector3.multiplyScalar. -/
def smul (v : Vec3) (c : ℝ) : Vec3 := ⟨v.x * c, v.y * c, v.z * c⟩

/-- THREE.Vector3.multiply (componentwise product). -/
def mulv (a b : Vec3) : Vec3 := ⟨a.x * b.x, a.y * b.y, a.z * b.z⟩

/-- THREE.Vector3.dot. -/
def dot (a b : Vec3) : ℝ := a.x * b.x + a.y * b.y + a.z * b.z

/-- THREE.Vector3.length: Euclidean norm. -/
def length (v : Vec3) : ℝ := Real.sqrt (v.x ^ 2 + v.y ^ 2 + v.z ^ 2)

/-- THREE.Vector3.normalize: `divideScalar(length || 1)` — the zero vector is
divided by 1 rather than 0. -/
def normalize (v : Vec3) : Vec3 :=
  v.smul (1 / (if v.length = 0 then 1 else v.length))

/-- THREE.Vector3.clampLength:
`divideScalar(length || 1).multiplyScalar(max(lo, min(hi, length)))`. -/
def clampLength (v : Vec3) (lo hi : ℝ) : Vec3 :=
  (v.smul (1 / (if v.length = 0 then 1 else v.length))).smul (max lo (min hi v.length))

theorem length_nonneg (v : Vec3) : 0 ≤ v.length := Real.sqrt_nonneg _

theorem length_eq_zero_iff (v : Vec3) : v.length = 0 ↔ v = ⟨0, 0, 0⟩ := by
  constructor
  · intro h
    have hsq : v.x ^ 2 + v.y ^ 2 + v.z ^ 2 ≤ 0 := by
      by_contra hpos
      push_neg at hpos
      have := Real.sqrt_pos.mpr hpos
      rw [length] at h
      linarith
    have hx : v.x = 0 := by nlinarith [sq_nonneg v.x, sq_nonneg v.y, sq_nonneg v.z]
    have hy : v.y = 0 := by nlinarith [sq_nonneg v.x, sq_nonneg v.y, sq_nonneg v.z]
    have hz : v.z = 0 := by nlinarith [sq_nonneg v.x, sq_nonneg v.y, sq_nonneg v.z]
    cases v
    simp_all
  · intro h
    subst h
    simp [length]

theorem length_smul (v : Vec3) (c : ℝ) : (v.smul c).length = |c| * v.length := by
  rw [length, length, smul]
  have h1 : (v.x * c) ^ 2 + (v.y * c) ^ 2 + (v.z * c) ^ 2
      = c ^ 2 * (v.x ^ 2 + v.y ^ 2 + v.z ^ 2) := by ring
  rw [h1, Real.sqrt_mul (sq_nonneg c), Real.sqrt_sq_eq_abs]

theorem abs_x_le_length (v : Vec3) : |v.x| ≤ v.length := by
  rw [length, ← Real.sqrt_sq_eq_abs]
  exact Real.sqrt_le_sqrt (by nlinarith [sq_nonneg v.y, sq_nonneg v.z])

theorem abs_y_le_length (v : Vec3) : |v.y| ≤ v.length := by
  rw [length, ← Real.sqrt_sq_eq_abs]
  exact Real.sqrt_le_sqrt (by nlinarith [sq_nonneg v.x, sq_nonneg v.z])

theorem length_single_y (a : ℝ) : (⟨0, a, 0⟩ : Vec3).length = |a| := by
  rw [length, ← Real.sqrt_sq_eq_abs]
  norm_num

theorem length_single_x (a : ℝ) : (⟨a, 0, 0⟩ : Vec3).length = |a| := by
  rw [length, ← Real.sqrt_sq_eq_abs]
  norm_num

theorem smul_comp (v : Vec3) (a b : ℝ) : (v.smul a).smul b = v.smul (a * b) := by
  simp [smul]
  refine ⟨by ring, by ring, by ring⟩

theorem smul_one (v : Vec3) : v.smul 1 = v := by
  cases v; simp [smul]

/-- Clamping with an upper bound at least the length is the identity. -/
theorem clampLength_of_le (v : Vec3) (hi : ℝ) (h : v.length ≤ hi) :
    v.clampLength 0 hi = v := by
  rw [clampLength]
  by_cases h0 : v.length = 0
  · have hv : v = ⟨0, 0, 0⟩ := (length_eq_zero_iff v).mp h0
    subst hv
    simp [smul, h0]
  · have hpos : 0 < v.length := lt_of_le_of_ne (length_nonneg v) (Ne.symm h0)
    rw [if_neg h0, min_eq_right h, max_eq_right (le_of_lt hpos), smul_comp]
    have : 1 / v.length * v.length = 1 := by field_simp
    rw [this, smul_one]

/-- The result of `clampLength 0 hi` has length at most `hi` (for `0 ≤ hi`). -/
theorem length_clampLength_le (v : Vec3) (hi : ℝ) (hhi : 0 ≤ hi) :
    (v.clampLength 0 hi).length ≤ hi := by
  by_cases h : v.length ≤ hi
  · rw [clampLength_of_le v hi h]; exact h
  · push_neg at h
    have hpos : 0 < v.length := lt_of_le_of_lt hhi h
    have h0 : v.length ≠ 0 := ne_of_gt hpos
    rw [clampLength, if_neg h0, min_eq_left (le_of_lt h),
      max_eq_right hhi, smul_comp, length_smul]
    have habs : |1 / v.length * hi| = 1 / v.length * hi := by
      rw [abs_of_nonneg]
      positivity
    rw [habs]
    calc 1 / v.length * hi * v.length = hi := by field_simp
    _ ≤ hi := le_refl hi

end Vec3

/-! ## Configuration (`this.config` and `this.worldBounds` in the constructor) -/

/-- Config field `gravity = -20`. -/
def gravity : ℝ := -20

/-- Config field `groundLevel = 0`. -/
def groundLevel : ℝ := 0

/-- Config field `maxVelocity = 50`. -/
def maxVelocity : ℝ := 50

/-- Config field `collisionTolerance = 0.01`. -/
def collisionTolerance : ℝ := 1 / 100

/-- Config field `restitution = 0.3`. -/
def configRestitution : ℝ := 3 / 10

/-- Config field `friction = 0.8`. -/
def configFriction : ℝ := 8 / 10

/-- World bound `worldBounds.min = (-50, -10, -50)`. -/
def worldBoundsMin : Vec3 := ⟨-50, -10, -50⟩

/-- World bound `worldBounds.max = (50, 50, 50)`. -/
def worldBoundsMax : Vec3 := ⟨50, 50, 50⟩

/-! ## Body records -/

/-- The `type` field of a body: box, sphere or capsule. -/
inductive BodyType where
  | box
  | sphere
  | capsule
deriving DecidableEq

/-- A rigid body record as built by `addRigidBody` and mutated by the tick
pipeline.  The `component` reference is omitted: the code only pushes copies of
state out through it, never reads physics state back. -/
structure RigidBody where
  id : String
  position : Vec3
  velocity : Vec3
  acceleration : Vec3
  size : Vec3
  mass : ℝ
  restitution : ℝ
  friction : ℝ
  isGrounded : Bool
  isKinematic : Bool
  btype : BodyType
  collisionMask : ℕ
  collisionLayer : ℕ

/-- A static body record as built by `addStaticBody`. -/
structure StaticBody where
  id : String
  position : Vec3
  size : Vec3
  btype : BodyType
  restitution : ℝ
  friction : ℝ
  collisionMask : ℕ
  collisionLayer : ℕ

/-- The fields of the `bodyData` argument of `addRigidBody`; `none` models an
absent (`undefined`) property. -/
structure RigidBodyInit where
  position : Option Vec3 := none
  velocity : Option Vec3 := none
  acceleration : Option Vec3 := none
  size : Option Vec3 := none
  mass : Option ℝ := none
  restitution : Option ℝ := none
  friction : Option ℝ := none
  isKinematic : Option Bool := none
  btype : Option BodyType := none
  collisionMask : Option ℕ := none
  collisionLayer : Option ℕ := none

/-- JavaScript `v || d` for an optional number: `undefined` and `0` (the falsy
number in range) both yield the default. -/
def orDefault (o : Option ℝ) (d : ℝ) : ℝ :=
  match o with
  | some v => if v = 0 then d else v
  | none => d

/-- JavaScript `v || d` for an optional bitmask (32-bit integer valued). -/
def orDefaultNat (o : Option ℕ) (d : ℕ) : ℕ :=
  match o with
  | some v => if v = 0 then d else v
  | none => d

/-- The rigid body built by `addRigidBody` from `bodyData` (lines 85–101):
`mass`, `collisionMask`, `collisionLayer`, `isKinematic`, `type` use `||`
defaulting; `restitution` and `friction` use an explicit `!== undefined`
check. -/
def mkRigidBody (id : String) (init : RigidBodyInit) : RigidBody where
  id := id
  position := init.position.getD ⟨0, 0, 0⟩
  velocity := init.velocity.getD ⟨0, 0, 0⟩
  acceleration := init.acceleration.getD ⟨0, 0, 0⟩
  size := init.size.getD ⟨1, 1, 1⟩
  mass := orDefault init.mass 1
  restitution := init.restitution.getD configRestitution
  friction := init.friction.getD configFriction
  isGrounded := false
  isKinematic := (init.isKinematic.getD false) || false
  btype := init.btype.getD BodyType.box
  collisionMask := orDefaultNat init.collisionMask 4294967295
  collisionLayer := orDefaultNat init.collisionLayer 1

/-- The default ground plane registered by `onInitialize`:
a static box named ground at `(0, groundLevel, 0)` with size `(100, 0.1, 100)`
and restitution/friction/mask/layer defaulted. -/
def groundBody : StaticBody where
  id := "ground"
  position := ⟨0, groundLevel, 0⟩
  size := ⟨100, 1 / 10, 100⟩
  btype := BodyType.box
  restitution := configRestitution
  friction := configFriction
  collisionMask := 4294967295
  collisionLayer := 1

/-! ## Registries -/

/-- Physics state: the two id-keyed registries (`this.rigidBodies`,
`this.staticBodies`), modelled as insertion-ordered association lists exactly
as a JavaScript `Map` iterates them. -/
structure PhysState where
  rigidBodies : List (String × RigidBody)
  staticBodies : List (String × StaticBody)

/-- Mirrors `Map.set`: overwrite in place if the key exists, else append. -/
def setEntry {β : Type} (xs : List (String × β)) (k : String) (v : β) :
    List (String × β) :=
  match xs with
  | [] => [(k, v)]
  | (k', v') :: rest =>
    if k = k' then (k, v) :: rest else (k', v') :: setEntry rest k v

/-- Mirrors `addRigidBody(id, bodyData)`: build the record, store it, return it. -/
def addRigidBody (st : PhysState) (id : String) (init : RigidBodyInit) :
    PhysState × RigidBody :=
  let body := mkRigidBody id init
  ({ st with rigidBodies := setEntry st.rigidBodies id body }, body)

/-- Mirrors `getRigidBody(id)`: `this.rigidBodies.get(id) || null`. -/
def getRigidBody (st : PhysState) (id : String) : Option RigidBody :=
  st.rigidBodies.lookup id

/-! ## Integrator (`updateRigidBodies`, lines 158–195) -/

/-- One integration step on a single body: gravity or grounded friction, then
velocity integration, the `clampLength(0, maxVelocity)` stability valve,
position integration, and the acceleration reset.  Kinematic bodies are
skipped. -/
def updateRigidBody (dt : ℝ) (b : RigidBody) : RigidBody :=
  if b.isKinematic then b
  else
    let acc :=
      if ¬b.isGrounded then { b.acceleration with y := gravity } else b.acceleration
    let vel0 :=
      if b.isGrounded then
        ⟨b.velocity.x * (1 - b.friction * dt), b.velocity.y,
          b.velocity.z * (1 - b.friction * dt)⟩
      else b.velocity
    let vel1 := vel0.add (acc.smul dt)
    let vel2 := vel1.clampLength 0 maxVelocity
    { b with
      velocity := vel2
      position := b.position.add (vel2.smul dt)
      acceleration := ⟨0, 0, 0⟩ }

/-- Mirrors `updateRigidBodies(deltaTime)`: integrate every registered body. -/
def updateRigidBodies (st : PhysState) (dt : ℝ) : PhysState :=
  { st with rigidBodies := st.rigidBodies.map fun p => (p.1, updateRigidBody dt p.2) }

/-! ## Collision detection (lines 200–316) -/

/-- A contact record as produced by `detectBoxBoxCollision`. -/
structure Contact where
  normal : Vec3
  penetrationDepth : ℝ
  contactPoint : Vec3
deriving DecidableEq

/-- Mirrors `checkCollisionLayers(bodyA, bodyB)`:
`(A.mask & B.layer) !== 0 && (B.mask & A.layer) !== 0`. -/
def checkCollisionLayers (maskA layerA maskB layerB : ℕ) : Bool :=
  (Nat.land maskA layerB ≠ 0) && (Nat.land maskB layerA ≠ 0)

/-- Axis overlap `min(aMax.x, bMax.x) - max(aMin.x, bMin.x)` with the AABB
corners `position ± size/2` (line 282). -/
def boxOverlapX (pA sA pB sB : Vec3) : ℝ :=
  min (pA.x + sA.x * (1 / 2)) (pB.x + sB.x * (1 / 2)) -
    max (pA.x - sA.x * (1 / 2)) (pB.x - sB.x * (1 / 2))

/-- Axis overlap on y (line 283). -/
def boxOverlapY (pA sA pB sB : Vec3) : ℝ :=
  min (pA.y + sA.y * (1 / 2)) (pB.y + sB.y * (1 / 2)) -
    max (pA.y - sA.y * (1 / 2)) (pB.y - sB.y * (1 / 2))

/-- Axis overlap on z (line 284). -/
def boxOverlapZ (pA sA pB sB : Vec3) : ℝ :=
  min (pA.z + sA.z * (1 / 2)) (pB.z + sB.z * (1 / 2)) -
    max (pA.z - sA.z * (1 / 2)) (pB.z - sB.z * (1 / 2))

/-- Mirrors `detectBoxBoxCollision(bodyA, bodyB)` (lines 275–316), in terms of the two
positions and sizes of the two bodies (the only fields it reads). -/
def detectBoxBoxCollision (pA sA pB sB : Vec3) : Option Contact :=
  let overlapX := boxOverlapX pA sA pB sB
  let overlapY := boxOverlapY pA sA pB sB
  let overlapZ := boxOverlapZ pA sA pB sB
  if overlapX ≤ collisionTolerance ∨ overlapY ≤ collisionTolerance ∨
      overlapZ ≤ collisionTolerance then
    none
  else if overlapX ≤ overlapY ∧ overlapX ≤ overlapZ then
    some ⟨⟨if pA.x < pB.x then -1 else 1, 0, 0⟩, overlapX, (pA.add pB).smul (1 / 2)⟩
  else if overlapY ≤ overlapZ then
    some ⟨⟨0, if pA.y < pB.y then -1 else 1, 0⟩, overlapY, (pA.add pB).smul (1 / 2)⟩
  else
    some ⟨⟨0, 0, if pA.z < pB.z then -1 else 1⟩, overlapZ, (pA.add pB).smul (1 / 2)⟩

/-- Mirrors `detectCollision(bodyA, bodyB)` (lines 259–267): box-box only, anything
else reports no collision. -/
def detectCollision (tA : BodyType) (pA sA : Vec3) (tB : BodyType) (pB sB : Vec3) :
    Option Contact :=
  if tA = BodyType.box ∧ tB = BodyType.box then detectBoxBoxCollision pA sA pB sB
  else none

/-- The two kinds of collision pair recorded in `collisionPairs`. -/
inductive PairType where
  | rigidStatic
  | rigidRigid
deriving DecidableEq

/-- An element of `this.collisionPairs`: body references are modelled by ids
(registry keys are unique), the contact is the one computed at detection
time. -/
structure CollisionPair where
  ptype : PairType
  idA : String
  idB : String
  collision : Contact

/-- Ordered pairs `(i, j)` with `i < j` of a list, in the nested-loop order of
lines 222–223. -/
def ordPairs {α : Type} : List α → List (α × α)
  | [] => []
  | a :: rest => (rest.map fun b => (a, b)) ++ ordPairs rest

/-- Mirrors `detectCollisions()` (lines 200–240): all rigid×static pairs in registry
order, then all rigid×rigid pairs `i < j`, filtered by the layer check. -/
def detectCollisions (st : PhysState) : List CollisionPair :=
  (st.rigidBodies.flatMap fun ra =>
    st.staticBodies.filterMap fun sb =>
      if checkCollisionLayers ra.2.collisionMask ra.2.collisionLayer
          sb.2.collisionMask sb.2.collisionLayer then
        (detectCollision ra.2.btype ra.2.position ra.2.size
            sb.2.btype sb.2.position sb.2.size).map
          fun c => ⟨PairType.rigidStatic, ra.1, sb.1, c⟩
      else none) ++
  ((ordPairs st.rigidBodies).filterMap fun ab =>
    if checkCollisionLayers ab.1.2.collisionMask ab.1.2.collisionLayer
        ab.2.2.collisionMask ab.2.2.collisionLayer then
      (detectCollision ab.1.2.btype ab.1.2.position ab.1.2.size
          ab.2.2.btype ab.2.2.position ab.2.2.size).map
        fun c => ⟨PairType.rigidRigid, ab.1.1, ab.2.1, c⟩
    else none)

/-! ## Collision resolution (lines 321–396) -/

/-- Rigid-vs-static branch of `resolveCollision` (lines 336–364): positional
separation, restitution impulse when moving into the surface, then ground
classification with the small-velocity clamp. -/
def resolveRigidStatic (a : RigidBody) (b : StaticBody) (c : Contact) : RigidBody :=
  let pos := a.position.add (c.normal.smul c.penetrationDepth)
  let vn := a.velocity.dot c.normal
  let vel1 :=
    if vn < 0 then
      a.velocity.add (c.normal.smul (-(1 + min a.restitution b.restitution) * vn))
    else a.velocity
  if b.id = "ground" ∧ c.normal.y > 1 / 2 then
    { a with
      position := pos
      velocity := if vel1.y < 1 / 10 then { vel1 with y := 0 } else vel1
      isGrounded := true }
  else
    { a with position := pos, velocity := vel1 }

/-- Rigid-vs-rigid branch of `resolveCollision` (lines 366–386): mass-weighted
positional split and the momentum impulse along the normal. -/
def resolveRigidRigid (a b : RigidBody) (c : Contact) : RigidBody × RigidBody :=
  let totalMass := a.mass + b.mass
  let posA := a.position.add (c.normal.smul (c.penetrationDepth * (b.mass / totalMass)))
  let posB := b.position.add (c.normal.smul (-c.penetrationDepth * (a.mass / totalMass)))
  let vn := (a.velocity.sub b.velocity).dot c.normal
  if vn < 0 then
    let impulse := c.normal.smul (-(1 + min a.restitution b.restitution) * vn / totalMass)
    ({ a with position := posA, velocity := a.velocity.add (impulse.smul b.mass) },
     { b with position := posB, velocity := b.velocity.sub (impulse.smul a.mass) })
  else
    ({ a with position := posA }, { b with position := posB })

/-- Mirrors `resolveCollision(collisionPair)` at state level: current bodies are read
back through their ids, mirroring the shared object references JavaScript
stores in the pair. -/
def resolveCollisionPair (st : PhysState) (p : CollisionPair) : PhysState :=
  match p.ptype with
  | PairType.rigidStatic =>
    match st.rigidBodies.lookup p.idA, st.staticBodies.lookup p.idB with
    | some a, some b =>
      { st with rigidBodies := setEntry st.rigidBodies p.idA (resolveRigidStatic a b p.collision) }
    | _, _ => st
  | PairType.rigidRigid =>
    match st.rigidBodies.lookup p.idA, st.rigidBodies.lookup p.idB with
    | some a, some b =>
      let ab := resolveRigidRigid a b p.collision
      { st with
        rigidBodies := setEntry (setEntry st.rigidBodies p.idA ab.1) p.idB ab.2 }
    | _, _ => st

/-- Mirrors `resolveCollisions()`: resolve the detected pairs in order. -/
def resolveCollisions (st : PhysState) (pairs : List CollisionPair) : PhysState :=
  pairs.foldl resolveCollisionPair st

/-! ## World bounds (`enforceWorldBounds`, lines 401–447) -/

/-- Bounds enforcement for one body; the returned number counts `onFallOut`
callback invocations (the lower-Y branch).  The x, y and z clauses run in
source order. -/
def enforceWorldBoundsBody (b : RigidBody) : RigidBody × ℕ :=
  let b1 :=
    if b.position.x < worldBoundsMin.x then
      { b with
        position := { b.position with x := worldBoundsMin.x }
        velocity := { b.velocity with x := |b.velocity.x| * b.restitution } }
    else if b.position.x > worldBoundsMax.x then
      { b with
        position := { b.position with x := worldBoundsMax.x }
        velocity := { b.velocity with x := -|b.velocity.x| * b.restitution } }
    else b
  let fellOut := if b1.position.y < worldBoundsMin.y then 1 else 0
  let b2 :=
    if b1.position.y < worldBoundsMin.y then
      { b1 with
        position := { b1.position with y := groundLevel + b1.size.y }
        velocity := { b1.velocity with y := 0 } }
    else if b1.position.y > worldBoundsMax.y then
      { b1 with
        position := { b1.position with y := worldBoundsMax.y }
        velocity := { b1.velocity with y := -|b1.velocity.y| * b1.restitution } }
    else b1
  let b3 :=
    if b2.position.z < worldBoundsMin.z then
      { b2 with
        position := { b2.position with z := worldBoundsMin.z }
        velocity := { b2.velocity with z := |b2.velocity.z| * b2.restitution } }
    else if b2.position.z > worldBoundsMax.z then
      { b2 with
        position := { b2.position with z := worldBoundsMax.z }
        velocity := { b2.velocity with z := -|b2.velocity.z| * b2.restitution } }
    else b2
  (b3, fellOut)

/-- Mirrors `enforceWorldBounds()` over the whole registry. -/
def enforceWorldBounds (st : PhysState) : PhysState :=
  { st with
    rigidBodies := st.rigidBodies.map fun p => (p.1, (enforceWorldBoundsBody p.2).1) }

/-! ## Knockback (`applyKnockback`, lines 455–476) -/

/-- Knockback applied to one body: `knockback = normalize(direction) * force`
componentwise, added to the velocity; positive vertical knockback enforces a
minimum upward velocity; magnitude `> 1` clears the grounded flag. -/
def applyKnockbackBody (b : RigidBody) (force direction : Vec3) : RigidBody :=
  let knockback := (direction.normalize).mulv force
  let vel1 := b.velocity.add knockback
  let vel2 :=
    if knockback.y > 0 ∧ vel1.y < knockback.y then { vel1 with y := knockback.y }
    else vel1
  { b with
    velocity := vel2
    isGrounded := if knockback.length > 1 then false else b.isGrounded }

/-- Mirrors `applyKnockback(bodyId, force, direction)`: `false` without side effects
for an unknown id, otherwise update the body and return `true`. -/
def applyKnockback (st : PhysState) (id : String) (force direction : Vec3) :
    PhysState × Bool :=
  match getRigidBody st id with
  | none => (st, false)
  | some b =>
    ({ st with rigidBodies := setEntry st.rigidBodies id (applyKnockbackBody b force direction) },
     true)

/-! ## One full tick (`onUpdate`, lines 60–77) -/

/-- One `onUpdate` call with fixed timestep `dt`: integrate, detect, resolve,
enforce bounds. -/
def tick (st : PhysState) (dt : ℝ) : PhysState :=
  let st1 := updateRigidBodies st dt
  enforceWorldBounds (resolveCollisions st1 (detectCollisions st1))

/-- Velocity magnitude of a registered body (0 for an unknown id); used to
state end-of-frame speed facts. -/
def bodyVelLen (st : PhysState) (id : String) : ℝ :=
  ((getRigidBody st id).map fun b => b.velocity.length).getD 0

/-! ## Registry lemmas -/

theorem lookup_eq_none_of_not_mem {β : Type} (xs : List (String × β)) (k : String)
    (h : k ∉ xs.map Prod.fst) : xs.lookup k = none := by
  induction xs with
  | nil => rfl
  | cons hd tl ih =>
    obtain ⟨k', v⟩ := hd
    simp only [List.map_cons, List.mem_cons] at h
    push_neg at h
    have hb : (k == k') = false := beq_eq_false_iff_ne.mpr h.1
    simp [List.lookup, hb, ih h.2]

theorem lookup_setEntry_self {β : Type} (xs : List (String × β)) (k : String) (v : β) :
    (setEntry xs k v).lookup k = some v := by
  induction xs with
  | nil => simp [setEntry, List.lookup]
  | cons hd tl ih =>
    obtain ⟨k', v'⟩ := hd
    by_cases h : k = k'
    · subst h
      simp [setEntry, List.lookup]
    · have hb : (k == k') = false := beq_eq_false_iff_ne.mpr h
      simp [setEntry, h, List.lookup, hb, ih]

theorem normalize_unit (v : Vec3) (h : v.length = 1) : v.normalize = v := by
  rw [Vec3.normalize, h]
  norm_num [Vec3.smul_one]

/-! ## Claim theorems -/

/-- C9: for an id not present in the rigid-body registry, `getRigidBody`
returns the null sentinel and `applyKnockback` returns `false` leaving the
state unchanged; both are total functions. -/
theorem unknown_id_sentinels (st : PhysState) (id : String) (force direction : Vec3)
    (h : id ∉ st.rigidBodies.map Prod.fst) :
    getRigidBody st id = none ∧ applyKnockback st id force direction = (st, false) := by
  have hl : st.rigidBodies.lookup id = none := lookup_eq_none_of_not_mem _ _ h
  exact ⟨hl, by simp [applyKnockback, getRigidBody, hl]⟩

/-- Witness for C9 at the empty registry. -/
theorem unknown_id_sentinels_witness :
    getRigidBody ⟨[], []⟩ "player1" = none ∧
      applyKnockback ⟨[], []⟩ "player1" ⟨0, 10, 0⟩ ⟨0, 1, 0⟩ = (⟨[], []⟩, false) :=
  unknown_id_sentinels ⟨[], []⟩ "player1" ⟨0, 10, 0⟩ ⟨0, 1, 0⟩ (by simp)

/-- C10: `addRigidBody` treats supplied `mass = 0`, `collisionLayer = 0` and
`collisionMask = 0` as absent (the `||` defaults 1, 1 and 0xFFFFFFFF apply),
while explicitly supplied `restitution = 0` and `friction = 0` are kept. -/
theorem addRigidBody_zero_falsy_defaults (st : PhysState) (id : String)
    (init : RigidBodyInit) :
    (init.mass = some 0 → ((addRigidBody st id init).2).mass = 1) ∧
    (init.collisionLayer = some 0 → ((addRigidBody st id init).2).collisionLayer = 1) ∧
    (init.collisionMask = some 0 →
      ((addRigidBody st id init).2).collisionMask = 4294967295) ∧
    (init.restitution = some 0 → ((addRigidBody st id init).2).restitution = 0) ∧
    (init.friction = some 0 → ((addRigidBody st id init).2).friction = 0) := by
  refine ⟨?_, ?_, ?_, ?_, ?_⟩ <;>
    · intro h
      simp [addRigidBody, mkRigidBody, orDefault, orDefaultNat, h]

/-- Witness for C10: an init supplying zero for all five fields. -/
theorem addRigidBody_zero_falsy_defaults_witness :
    ((addRigidBody ⟨[], []⟩ "p1"
        { mass := some 0, restitution := some 0, friction := some 0,
          collisionMask := some 0, collisionLayer := some 0 }).2).mass = 1 ∧
    ((addRigidBody ⟨[], []⟩ "p1"
        { mass := some 0, restitution := some 0, friction := some 0,
          collisionMask := some 0, collisionLayer := some 0 }).2).collisionLayer = 1 ∧
    ((addRigidBody ⟨[], []⟩ "p1"
        { mass := some 0, restitution := some 0, friction := some 0,
          collisionMask := some 0, collisionLayer := some 0 }).2).collisionMask = 4294967295 ∧
    ((addRigidBody ⟨[], []⟩ "p1"
        { mass := some 0, restitution := some 0, friction := some 0,
          collisionMask := some 0, collisionLayer := some 0 }).2).restitution = 0 ∧
    ((addRigidBody ⟨[], []⟩ "p1"
        { mass := some 0, restitution := some 0, friction := some 0,
          collisionMask := some 0, collisionLayer := some 0 }).2).friction = 0 := by
  have h := addRigidBody_zero_falsy_defaults ⟨[], []⟩ "p1"
    { mass := some 0, restitution := some 0, friction := some 0,
      collisionMask := some 0, collisionLayer := some 0 }
  exact ⟨h.1 rfl, h.2.1 rfl, h.2.2.1 rfl, h.2.2.2.1 rfl, h.2.2.2.2 rfl⟩

/-- C2: for a registered body and a unit direction, `applyKnockback` adds the
knockback vector `direction * force` to the velocity componentwise, raises the
vertical velocity to the vertical component of the knockback when that one is
positive and exceeds the post-addition vertical velocity, and clears
`isGrounded` whenever the knockback magnitude exceeds 1. -/
theorem applyKnockback_spec (st : PhysState) (id : String) (b : RigidBody)
    (force direction : Vec3) (h : getRigidBody st id = some b)
    (hdir : direction.length = 1) :
    (applyKnockback st id force direction).2 = true ∧
    getRigidBody (applyKnockback st id force direction).1 id
      = some (applyKnockbackBody b force direction) ∧
    (applyKnockbackBody b force direction).velocity.x
      = b.velocity.x + (direction.mulv force).x ∧
    (applyKnockbackBody b force direction).velocity.z
      = b.velocity.z + (direction.mulv force).z ∧
    (applyKnockbackBody b force direction).velocity.y
      = (if 0 < (direction.mulv force).y ∧
            b.velocity.y + (direction.mulv force).y < (direction.mulv force).y
          then (direction.mulv force).y
          else b.velocity.y + (direction.mulv force).y) ∧
    (1 < (direction.mulv force).length →
      (applyKnockbackBody b force direction).isGrounded = false) := by
  have hn : direction.normalize = direction := normalize_unit direction hdir
  refine ⟨?_, ?_, ?_, ?_, ?_, ?_⟩
  · simp [applyKnockback, h]
  · simp only [applyKnockback, h]
    exact lookup_setEntry_self _ _ _
  · simp only [applyKnockbackBody, hn]
    split_ifs <;> simp [Vec3.add]
  · simp only [applyKnockbackBody, hn]
    split_ifs <;> simp [Vec3.add]
  · simp only [applyKnockbackBody, hn, Vec3.add, gt_iff_lt]
    split_ifs <;> simp_all [Vec3.add]
  · intro hlen
    simp [applyKnockbackBody, hn, hlen]

/-- Example body for the C2 witness: registered as `p1`, falling at
`vy = -5`. -/
def kbBody : RigidBody := mkRigidBody "p1" { velocity := some ⟨0, -5, 0⟩ }

/-- Registry holding just `kbBody`. -/
def kbState : PhysState := ⟨[("p1", kbBody)], []⟩

/-- Witness for C2: knockback `force = (0,10,0)`, `dir = (0,1,0)` on a body
with `vy = -5` gives `vy = 10` exactly and clears `isGrounded`. -/
theorem applyKnockback_spec_witness :
    (applyKnockbackBody kbBody ⟨0, 10, 0⟩ ⟨0, 1, 0⟩).velocity.y = 10 ∧
    (applyKnockbackBody kbBody ⟨0, 10, 0⟩ ⟨0, 1, 0⟩).isGrounded = false ∧
    (applyKnockback kbState "p1" ⟨0, 10, 0⟩ ⟨0, 1, 0⟩).2 = true := by
  have hl : getRigidBody kbState "p1" = some kbBody := by
    simp [getRigidBody, kbState, List.lookup]
  have hu : (⟨0, 1, 0⟩ : Vec3).length = 1 := by
    rw [Vec3.length_single_y]; norm_num
  have h := applyKnockback_spec kbState "p1" kbBody ⟨0, 10, 0⟩ ⟨0, 1, 0⟩ hl hu
  refine ⟨?_, ?_, h.1⟩
  · rw [h.2.2.2.2.1]
    norm_num [Vec3.mulv, kbBody, mkRigidBody]
  · apply h.2.2.2.2.2
    have hm : (Vec3.mulv ⟨0, 1, 0⟩ ⟨0, 10, 0⟩) = ⟨0, 10, 0⟩ := by
      norm_num [Vec3.mulv]
    rw [hm, Vec3.length_single_y]
    norm_num

/-- C7: a body whose Y position is below the lower world bound fires the
fall-out callback exactly once during bounds enforcement, is repositioned to
`groundLevel + size.y`, and gets zero vertical velocity. -/
theorem fallout_reposition (b : RigidBody) (h : b.position.y < worldBoundsMin.y) :
    (enforceWorldBoundsBody b).2 = 1 ∧
    ((enforceWorldBoundsBody b).1).position.y = groundLevel + b.size.y ∧
    ((enforceWorldBoundsBody b).1).velocity.y = 0 := by
  simp only [enforceWorldBoundsBody]
  split_ifs <;> simp_all

/-- Example body for the C7 witness, fallen to `y = -11`. -/
def fallBody : RigidBody := mkRigidBody "p1" { position := some ⟨0, -11, 0⟩ }

/-- Witness for C7 at `y = -11 < -10`. -/
theorem fallout_reposition_witness :
    (enforceWorldBoundsBody fallBody).2 = 1 ∧
    ((enforceWorldBoundsBody fallBody).1).position.y = groundLevel + fallBody.size.y ∧
    ((enforceWorldBoundsBody fallBody).1).velocity.y = 0 :=
  fallout_reposition fallBody (by norm_num [fallBody, mkRigidBody, worldBoundsMin])

/-- C1 (amended): immediately after the integration phase of a tick, every
velocity magnitude of every non-kinematic body is at most `maxVelocity`, for any input
magnitude — the clamp lives in `updateRigidBodies` only. -/
theorem integration_clamps_velocity (b : RigidBody) (dt : ℝ)
    (hk : b.isKinematic = false) :
    (updateRigidBody dt b).velocity.length ≤ maxVelocity := by
  simp only [updateRigidBody, hk, Bool.false_eq_true, if_false]
  exact Vec3.length_clampLength_le _ _ (by norm_num [maxVelocity])

/-- Witness for C1's amended theorem on a default body. -/
theorem integration_clamps_velocity_witness :
    (updateRigidBody (1 / 60) (mkRigidBody "p1" {})).velocity.length ≤ maxVelocity :=
  integration_clamps_velocity _ _ (by simp [mkRigidBody])

/-- Example body for the C8 counterexample: over-cap speed and nonzero
residual acceleration. -/
def b8 : RigidBody :=
  mkRigidBody "p1" { velocity := some ⟨100, 0, 0⟩, acceleration := some ⟨1, 2, 3⟩ }

/-- Counterexample for C8: a `dt = 0` step is not a no-op — the velocity of a
body faster than `maxVelocity` is clamped, and the acceleration is always
reset to zero. -/
theorem zero_dt_not_noop :
    (updateRigidBody 0 b8).velocity ≠ b8.velocity ∧
    (updateRigidBody 0 b8).acceleration ≠ b8.acceleration := by
  have hlen : (⟨100, 0, 0⟩ : Vec3).length = 100 := by
    rw [Vec3.length_single_x]; norm_num
  have hcl : Vec3.clampLength ⟨100, 0, 0⟩ 0 maxVelocity = ⟨50, 0, 0⟩ := by
    rw [Vec3.clampLength, hlen]
    norm_num [Vec3.smul, maxVelocity, min_def, max_def]
  have hvel : (updateRigidBody 0 b8).velocity = ⟨50, 0, 0⟩ := by
    simp only [updateRigidBody, b8, mkRigidBody]
    norm_num [Vec3.add, Vec3.smul, hcl]
  have hacc : (updateRigidBody 0 b8).acceleration = ⟨0, 0, 0⟩ := by
    simp only [updateRigidBody, b8, mkRigidBody]
    norm_num
  constructor
  · rw [hvel]
    simp [b8, mkRigidBody, Vec3.mk.injEq]
  · rw [hacc]
    simp [b8, mkRigidBody, Vec3.mk.injEq]

/-- C8 (amended): a `dt = 0` integration step leaves position, grounded flag
and kinematic flag unchanged, leaves the velocity unchanged whenever its
magnitude is within `maxVelocity`, resets the acceleration of non-kinematic
bodies to zero, and leaves kinematic bodies entirely untouched; every value
stays well-defined. -/
theorem zero_dt_step_effects (b : RigidBody) :
    (updateRigidBody 0 b).position = b.position ∧
    (b.velocity.length ≤ maxVelocity → (updateRigidBody 0 b).velocity = b.velocity) ∧
    (b.isKinematic = false → (updateRigidBody 0 b).acceleration = ⟨0, 0, 0⟩) ∧
    (b.isKinematic = true → updateRigidBody 0 b = b) ∧
    (updateRigidBody 0 b).isGrounded = b.isGrounded := by
  by_cases hk : b.isKinematic
  · simp [updateRigidBody, hk]
  · simp only [Bool.not_eq_true] at hk
    refine ⟨?_, ?_, ?_, ?_, ?_⟩
    · simp [updateRigidBody, hk, Vec3.add, Vec3.smul]
    · intro hle
      simp [updateRigidBody, hk, Vec3.add, Vec3.smul,
        Vec3.clampLength_of_le b.velocity maxVelocity hle]
    · intro _
      simp [updateRigidBody, hk]
    · intro hk'
      rw [hk] at hk'
      exact absurd hk' (by simp)
    · simp [updateRigidBody, hk]

/-- Witness for C8's amended theorem on a concrete slow body. -/
theorem zero_dt_step_effects_witness :
    (updateRigidBody 0 kbBody).position = kbBody.position ∧
    (updateRigidBody 0 kbBody).velocity = kbBody.velocity ∧
    (updateRigidBody 0 kbBody).acceleration = ⟨0, 0, 0⟩ := by
  have h := zero_dt_step_effects kbBody
  refine ⟨h.1, ?_, h.2.2.1 (by simp [kbBody, mkRigidBody])⟩
  apply h.2.1
  have hv : kbBody.velocity = ⟨0, -5, 0⟩ := by simp [kbBody, mkRigidBody]
  rw [hv, Vec3.length_single_y]
  norm_num [maxVelocity]

/-- Example body for the C5 counterexample: already falling at the velocity
cap. -/
def b5 : RigidBody := mkRigidBody "p1" { velocity := some ⟨0, -50, 0⟩ }

/-- Counterexample for C5: for a body at the cap, an ungrounded collision-free
step does not change `velocity.y` by `gravity * dt` — the clamp truncates
it. -/
theorem gravity_step_clamped :
    (updateRigidBody 1 b5).velocity.y ≠ b5.velocity.y + gravity * 1 := by
  have hlen : (⟨0, -70, 0⟩ : Vec3).length = 70 := by
    rw [Vec3.length_single_y]; norm_num
  have hcl : Vec3.clampLength ⟨0, -70, 0⟩ 0 maxVelocity = ⟨0, -50, 0⟩ := by
    rw [Vec3.clampLength, hlen]
    norm_num [Vec3.smul, maxVelocity, min_def, max_def]
  have hvel : (updateRigidBody 1 b5).velocity = ⟨0, -50, 0⟩ := by
    simp only [updateRigidBody, b5, mkRigidBody]
    norm_num [Vec3.add, Vec3.smul, gravity, hcl]
  rw [hvel]
  simp [b5, mkRigidBody, gravity]

/-- C5 (amended): for a non-kinematic ungrounded body, a collision-free step
with `dt > 0` changes `velocity.y` by exactly `gravity * dt`, provided the
post-gravity velocity is within `maxVelocity` (otherwise the clamp
truncates). -/
theorem gravity_step_below_cap (b : RigidBody) (dt : ℝ)
    (hk : b.isKinematic = false) (hg : b.isGrounded = false) (_hdt : 0 < dt)
    (hlen : (b.velocity.add
        ((⟨b.acceleration.x, gravity, b.acceleration.z⟩ : Vec3).smul dt)).length
      ≤ maxVelocity) :
    (updateRigidBody dt b).velocity.y = b.velocity.y + gravity * dt := by
  simp only [updateRigidBody, hk, hg, Bool.false_eq_true, not_false_eq_true,
    if_false, if_true]
  rw [Vec3.clampLength_of_le _ _ hlen]
  simp [Vec3.add, Vec3.smul]

/-- Witness for C5's amended theorem: a default body gains
`gravity / 60 = -1/3` vertical velocity in one default-rate step. -/
theorem gravity_step_below_cap_witness :
    (updateRigidBody (1 / 60) (mkRigidBody "p1" {})).velocity.y
      = (mkRigidBody "p1" {}).velocity.y + gravity * (1 / 60) := by
  apply gravity_step_below_cap
  · simp [mkRigidBody]
  · simp [mkRigidBody]
  · norm_num
  · have harg : ((mkRigidBody "p1" {}).velocity.add
        ((⟨(mkRigidBody "p1" {}).acceleration.x, gravity,
          (mkRigidBody "p1" {}).acceleration.z⟩ : Vec3).smul (1 / 60)))
        = ⟨0, -(1 / 3), 0⟩ := by
      norm_num [mkRigidBody, Vec3.add, Vec3.smul, gravity]
    rw [harg, Vec3.length_single_y, abs_neg,
      abs_of_nonneg (by norm_num : (0 : ℝ) ≤ 1 / 3)]
    norm_num [maxVelocity]

/-- C3: box-box detection returns no contact exactly when some axis overlap is
at most the tolerance; otherwise the penetration depth of the contact is the
smallest axis overlap, and the normal is the ±1 unit vector on the axis of
smallest overlap (ties broken x, then y, then z) signed toward body A.  The
concrete 2×2×2 cases at `x = 1` and `x = 5` are included. -/
theorem detectBoxBox_spec :
    (∀ pA sA pB sB : Vec3,
      detectBoxBoxCollision pA sA pB sB = none ↔
        (boxOverlapX pA sA pB sB ≤ collisionTolerance ∨
          boxOverlapY pA sA pB sB ≤ collisionTolerance ∨
          boxOverlapZ pA sA pB sB ≤ collisionTolerance)) ∧
    (∀ (pA sA pB sB : Vec3) (c : Contact),
      detectBoxBoxCollision pA sA pB sB = some c →
        c.penetrationDepth
          = min (boxOverlapX pA sA pB sB)
              (min (boxOverlapY pA sA pB sB) (boxOverlapZ pA sA pB sB)) ∧
        collisionTolerance < c.penetrationDepth ∧
        ((c.normal = ⟨if pA.x < pB.x then -1 else 1, 0, 0⟩ ∧
            c.penetrationDepth = boxOverlapX pA sA pB sB ∧
            boxOverlapX pA sA pB sB ≤ boxOverlapY pA sA pB sB ∧
            boxOverlapX pA sA pB sB ≤ boxOverlapZ pA sA pB sB) ∨
          (c.normal = ⟨0, if pA.y < pB.y then -1 else 1, 0⟩ ∧
            c.penetrationDepth = boxOverlapY pA sA pB sB ∧
            boxOverlapY pA sA pB sB < boxOverlapX pA sA pB sB ∧
            boxOverlapY pA sA pB sB ≤ boxOverlapZ pA sA pB sB) ∨
          (c.normal = ⟨0, 0, if pA.z < pB.z then -1 else 1⟩ ∧
            c.penetrationDepth = boxOverlapZ pA sA pB sB ∧
            boxOverlapZ pA sA pB sB < boxOverlapX pA sA pB sB ∧
            boxOverlapZ pA sA pB sB < boxOverlapY pA sA pB sB))) ∧
    detectBoxBoxCollision ⟨0, 0, 0⟩ ⟨2, 2, 2⟩ ⟨1, 0, 0⟩ ⟨2, 2, 2⟩
      = some ⟨⟨-1, 0, 0⟩, 1, ⟨1 / 2, 0, 0⟩⟩ ∧
    detectBoxBoxCollision ⟨0, 0, 0⟩ ⟨2, 2, 2⟩ ⟨5, 0, 0⟩ ⟨2, 2, 2⟩ = none := by
  refine ⟨?_, ?_, ?_, ?_⟩
  · intro pA sA pB sB
    constructor
    · intro h
      by_contra hcon
      simp only [detectBoxBoxCollision] at h
      rw [if_neg hcon] at h
      by_cases h2 : boxOverlapX pA sA pB sB ≤ boxOverlapY pA sA pB sB ∧
          boxOverlapX pA sA pB sB ≤ boxOverlapZ pA sA pB sB
      · rw [if_pos h2] at h
        exact absurd h (by simp)
      · rw [if_neg h2] at h
        by_cases h3 : boxOverlapY pA sA pB sB ≤ boxOverlapZ pA sA pB sB
        · rw [if_pos h3] at h
          exact absurd h (by simp)
        · rw [if_neg h3] at h
          exact absurd h (by simp)
    · intro hcond
      simp only [detectBoxBoxCollision]
      rw [if_pos hcond]
  · intro pA sA pB sB c h
    simp only [detectBoxBoxCollision] at h
    by_cases h1 : boxOverlapX pA sA pB sB ≤ collisionTolerance ∨
        boxOverlapY pA sA pB sB ≤ collisionTolerance ∨
        boxOverlapZ pA sA pB sB ≤ collisionTolerance
    · rw [if_pos h1] at h
      exact absurd h (by simp)
    · rw [if_neg h1] at h
      push_neg at h1
      obtain ⟨hx, hy, hz⟩ := h1
      by_cases h2 : boxOverlapX pA sA pB sB ≤ boxOverlapY pA sA pB sB ∧
          boxOverlapX pA sA pB sB ≤ boxOverlapZ pA sA pB sB
      · rw [if_pos h2, Option.some_inj] at h
        subst h
        exact ⟨(min_eq_left (le_min h2.1 h2.2)).symm, hx, Or.inl ⟨rfl, rfl, h2.1, h2.2⟩⟩
      · rw [if_neg h2] at h
        by_cases h3 : boxOverlapY pA sA pB sB ≤ boxOverlapZ pA sA pB sB
        · rw [if_pos h3, Option.some_inj] at h
          subst h
          have hyx : boxOverlapY pA sA pB sB < boxOverlapX pA sA pB sB := by
            rcases not_and_or.mp h2 with hh | hh
            · exact not_le.mp hh
            · have := not_le.mp hh
              linarith
          refine ⟨?_, hy, Or.inr (Or.inl ⟨rfl, rfl, hyx, h3⟩)⟩
          rw [min_eq_left h3, min_eq_right (le_of_lt hyx)]
        · rw [if_neg h3, Option.some_inj] at h
          subst h
          have hzy : boxOverlapZ pA sA pB sB < boxOverlapY pA sA pB sB := not_le.mp h3
          have hzx : boxOverlapZ pA sA pB sB < boxOverlapX pA sA pB sB := by
            rcases not_and_or.mp h2 with hh | hh
            · have := not_le.mp hh
              linarith
            · exact not_le.mp hh
          refine ⟨?_, hz, Or.inr (Or.inr ⟨rfl, rfl, hzx, hzy⟩)⟩
          rw [min_eq_right (le_of_lt hzy), min_eq_right (le_of_lt hzx)]
  · norm_num [detectBoxBoxCollision, boxOverlapX, boxOverlapY, boxOverlapZ,
      collisionTolerance, Vec3.add, Vec3.smul, min_def, max_def]
  · norm_num [detectBoxBoxCollision, boxOverlapX, boxOverlapY, boxOverlapZ,
      collisionTolerance, min_def, max_def]

/-- Witness for the general characterization of C3, applied at the 2×2×2 boxes with
B at `x = 1`. -/
theorem detectBoxBox_spec_witness :
    (⟨⟨-1, 0, 0⟩, 1, ⟨1 / 2, 0, 0⟩⟩ : Contact).penetrationDepth
      = min (boxOverlapX ⟨0, 0, 0⟩ ⟨2, 2, 2⟩ ⟨1, 0, 0⟩ ⟨2, 2, 2⟩)
          (min (boxOverlapY ⟨0, 0, 0⟩ ⟨2, 2, 2⟩ ⟨1, 0, 0⟩ ⟨2, 2, 2⟩)
            (boxOverlapZ ⟨0, 0, 0⟩ ⟨2, 2, 2⟩ ⟨1, 0, 0⟩ ⟨2, 2, 2⟩)) ∧
    collisionTolerance
      < (⟨⟨-1, 0, 0⟩, 1, ⟨1 / 2, 0, 0⟩⟩ : Contact).penetrationDepth := by
  have h := detectBoxBox_spec.2.1 ⟨0, 0, 0⟩ ⟨2, 2, 2⟩ ⟨1, 0, 0⟩ ⟨2, 2, 2⟩
    ⟨⟨-1, 0, 0⟩, 1, ⟨1 / 2, 0, 0⟩⟩ detectBoxBox_spec.2.2.1
  exact ⟨h.1, h.2.1⟩

/-- C4: a detected contact against the distinguished ground body whose normal
has y-component above 0.5 marks the body grounded in the same tick, and the
post-resolution vertical velocity is non-negative (restitutions taken
non-negative, as in the 0–1 data-model range). -/
theorem ground_contact_grounds (a : RigidBody) (g : StaticBody) (c : Contact)
    (hid : g.id = "ground")
    (hdet : detectCollision a.btype a.position a.size g.btype g.position g.size
      = some c)
    (hny : 1 / 2 < c.normal.y)
    (hra : 0 ≤ a.restitution) (hrg : 0 ≤ g.restitution) :
    (resolveRigidStatic a g c).isGrounded = true ∧
    0 ≤ (resolveRigidStatic a g c).velocity.y := by
  have hnormal : c.normal = ⟨0, 1, 0⟩ := by
    simp only [detectCollision] at hdet
    by_cases ht : a.btype = BodyType.box ∧ g.btype = BodyType.box
    · rw [if_pos ht] at hdet
      simp only [detectBoxBoxCollision] at hdet
      by_cases h1 : boxOverlapX a.position a.size g.position g.size ≤ collisionTolerance ∨
          boxOverlapY a.position a.size g.position g.size ≤ collisionTolerance ∨
          boxOverlapZ a.position a.size g.position g.size ≤ collisionTolerance
      · rw [if_pos h1] at hdet
        exact absurd hdet (by simp)
      · rw [if_neg h1] at hdet
        by_cases h2 : boxOverlapX a.position a.size g.position g.size
              ≤ boxOverlapY a.position a.size g.position g.size ∧
            boxOverlapX a.position a.size g.position g.size
              ≤ boxOverlapZ a.position a.size g.position g.size
        · rw [if_pos h2, Option.some_inj] at hdet
          subst hdet
          norm_num at hny
        · rw [if_neg h2] at hdet
          by_cases h3 : boxOverlapY a.position a.size g.position g.size
              ≤ boxOverlapZ a.position a.size g.position g.size
          · rw [if_pos h3, Option.some_inj] at hdet
            subst hdet
            by_cases hyy : a.position.y < g.position.y
            · simp only [if_pos hyy] at hny
              norm_num at hny
            · simp [if_neg hyy]
          · rw [if_neg h3, Option.some_inj] at hdet
            subst hdet
            norm_num at hny
    · rw [if_neg ht] at hdet
      exact absurd hdet (by simp)
  have he0 : 0 ≤ min a.restitution g.restitution := le_min hra hrg
  constructor
  · norm_num [resolveRigidStatic, hnormal, hid]
  · by_cases hv : a.velocity.y < 0
    · norm_num [resolveRigidStatic, hnormal, hid, hv, Vec3.add, Vec3.smul, Vec3.dot]
      split_ifs with hcl
      · norm_num
      · have hineq : (0 : ℝ) ≤ a.velocity.y
            + (-(min a.restitution g.restitution) + -1) * a.velocity.y := by
          nlinarith [he0, hv]
        simpa using hineq
    · norm_num [resolveRigidStatic, hnormal, hid, hv, Vec3.add, Vec3.smul, Vec3.dot]
      split_ifs with hcl
      · norm_num
      · push_neg at hv
        linarith

/-- Example body for the C4 witness and C6: a 1×1×1 box centred at `y = 0.4`,
overlapping the ground slab, falling at `vy = -2`, restitution 0.8. -/
def bC6 : RigidBody :=
  mkRigidBody "p1"
    { position := some ⟨0, 2 / 5, 0⟩, velocity := some ⟨0, -2, 0⟩,
      restitution := some (4 / 5) }

/-- The contact `detectBoxBoxCollision` produces for `bC6` against the ground:
upward unit normal, depth 0.1, midpoint contact point. -/
def cC6 : Contact := ⟨⟨0, 1, 0⟩, 1 / 10, ⟨0, 1 / 5, 0⟩⟩

/-- Detection of `bC6` against the default ground gives exactly `cC6`. -/
theorem detect_bC6_ground :
    detectCollision bC6.btype bC6.position bC6.size groundBody.btype
      groundBody.position groundBody.size = some cC6 := by
  norm_num [detectCollision, bC6, cC6, groundBody, mkRigidBody, groundLevel,
    detectBoxBoxCollision, boxOverlapX, boxOverlapY, boxOverlapZ,
    collisionTolerance, Vec3.add, Vec3.smul, min_def, max_def]

/-- Witness for C4 at the concrete ground contact of `bC6`. -/
theorem ground_contact_grounds_witness :
    (resolveRigidStatic bC6 groundBody cC6).isGrounded = true ∧
    0 ≤ (resolveRigidStatic bC6 groundBody cC6).velocity.y := by
  apply ground_contact_grounds bC6 groundBody cC6 rfl detect_bC6_ground
  · norm_num [cC6]
  · norm_num [bC6, mkRigidBody]
  · norm_num [groundBody, configRestitution]

/-- C6: a restitution-0.8 body hitting the default ground (restitution 0.3) at
`vy = -2` takes the bounce impulse with `min` restitution 0.3 before the
small-velocity clamp, ending with `vy = 0.6`: strictly positive and strictly
below 2. -/
theorem restitution_bounce_example :
    detectCollision bC6.btype bC6.position bC6.size groundBody.btype
      groundBody.position groundBody.size = some cC6 ∧
    (resolveRigidStatic bC6 groundBody cC6).velocity.y = 3 / 5 ∧
    0 < (resolveRigidStatic bC6 groundBody cC6).velocity.y ∧
    (resolveRigidStatic bC6 groundBody cC6).velocity.y < 2 := by
  have hvy : (resolveRigidStatic bC6 groundBody cC6).velocity.y = 3 / 5 := by
    norm_num [resolveRigidStatic, bC6, cC6, groundBody, mkRigidBody,
      configRestitution, Vec3.add, Vec3.smul, Vec3.dot, min_def]
  exact ⟨detect_bC6_ground, hvy, by rw [hvy]; norm_num, by rw [hvy]; norm_num⟩

/-- Body for the C1 counterexample: default body hovering at `y = 10`. -/
def pC1 : RigidBody := mkRigidBody "p1" { position := some ⟨0, 10, 0⟩ }

/-- State for the C1 counterexample: one player body plus the default
ground. -/
def stC1 : PhysState := ⟨[("p1", pC1)], [("ground", groundBody)]⟩

/-- Body `pC1` after one default-rate integration step. -/
def pC1a : RigidBody :=
  { pC1 with
    velocity := ⟨0, -(1 / 3), 0⟩
    position := ⟨0, 1799 / 180, 0⟩
    acceleration := ⟨0, 0, 0⟩ }

/-- State `stC1` after one default-rate tick. -/
def stC1a : PhysState := ⟨[("p1", pC1a)], [("ground", groundBody)]⟩

/-- Body `pC1a` after the `(100, 0, 0)` knockback. -/
def pC1b : RigidBody :=
  { pC1a with velocity := ⟨100, -(1 / 3), 0⟩, isGrounded := false }

/-- One full default-rate tick of `stC1` integrates gravity and hits neither
the ground nor the world bounds. -/
theorem tick_stC1 : tick stC1 (1 / 60) = stC1a := by
  have hcl : Vec3.clampLength ⟨0, -(1 / 3), 0⟩ 0 maxVelocity = ⟨0, -(1 / 3), 0⟩ := by
    apply Vec3.clampLength_of_le
    rw [Vec3.length_single_y, abs_neg, abs_of_nonneg (by norm_num : (0 : ℝ) ≤ 1 / 3)]
    norm_num [maxVelocity]
  have hupd : updateRigidBodies stC1 (1 / 60) = stC1a := by
    simp only [updateRigidBodies, stC1, stC1a, List.map, pC1, pC1a, mkRigidBody]
    norm_num [updateRigidBody, Vec3.add, Vec3.smul, gravity, hcl]
  have hlayers : checkCollisionLayers 4294967295 1 4294967295 1 = true := by decide
  have hdet : detectCollisions stC1a = [] := by
    norm_num [detectCollisions, stC1a, pC1a, pC1, mkRigidBody, groundBody, hlayers,
      detectCollision, detectBoxBoxCollision, boxOverlapX, boxOverlapY, boxOverlapZ,
      collisionTolerance, ordPairs, groundLevel, min_def, max_def]
  have hbounds : enforceWorldBounds stC1a = stC1a := by
    norm_num [enforceWorldBounds, enforceWorldBoundsBody, stC1a, pC1a, pC1,
      mkRigidBody, worldBoundsMin, worldBoundsMax, groundLevel]
  rw [tick, hupd, hdet]
  rw [show resolveCollisions stC1a [] = stC1a from rfl]
  exact hbounds

/-- Counterexample for C1: after a full tick, an `applyKnockback` call made
the same frame leaves the velocity magnitude of the body above `maxVelocity` — no
post-knockback clamp exists. -/
theorem knockback_exceeds_tick_cap :
    maxVelocity <
      bodyVelLen (applyKnockback (tick stC1 (1 / 60)) "p1" ⟨100, 0, 0⟩ ⟨1, 0, 0⟩).1
        "p1" := by
  rw [tick_stC1]
  have hnorm : (⟨1, 0, 0⟩ : Vec3).normalize = ⟨1, 0, 0⟩ :=
    normalize_unit _ (by rw [Vec3.length_single_x]; norm_num)
  have happ : (applyKnockback stC1a "p1" ⟨100, 0, 0⟩ ⟨1, 0, 0⟩).1
      = ⟨[("p1", pC1b)], [("ground", groundBody)]⟩ := by
    simp only [applyKnockback, getRigidBody, stC1a, List.lookup]
    norm_num [applyKnockbackBody, hnorm, Vec3.mulv, Vec3.add, setEntry,
      pC1b, pC1a, pC1, mkRigidBody, Vec3.length_single_x]
  rw [happ]
  have hv : bodyVelLen ⟨[("p1", pC1b)], [("ground", groundBody)]⟩ "p1"
      = (⟨100, -(1 / 3), 0⟩ : Vec3).length := by
    simp [bodyVelLen, getRigidBody, List.lookup, pC1b]
  rw [hv]
  refine lt_of_lt_of_le ?_ (Vec3.abs_x_le_length ⟨100, -(1 / 3), 0⟩)
  norm_num [maxVelocity]

end FighterPhys
